import Mathlib

/-!
Verification of the Dexcom-ESP32-Reader source (`ESP32_Reader/DexcomG6.ino`).

Byte strings (`std::string` values holding raw bytes) are modelled as
`List Nat`; every indexed read of a string goes through `byteAt`, which
reduces modulo 256 because a `char` holds one byte.  Fallible operations
return `Option`.  The AES primitive models the single-block
electronic-codebook encryption performed by `mbedtls_aes_crypt_ecb`
(FIPS-197 AES with 128/192/256-bit keys, as accepted by
`mbedtls_aes_setkey_enc`).
-/

namespace DexcomG6

/-! ## AES block cipher (model of the mbedtls primitive) -/

/-- The AES S-box (FIPS-197 figure 7), row by row. -/
def sbox : List Nat :=
  [0x63, 0x7c, 0x77, 0x7b, 0xf2, 0x6b, 0x6f, 0xc5, 0x30, 0x01, 0x67, 0x2b, 0xfe, 0xd7, 0xab, 0x76,
   0xca, 0x82, 0xc9, 0x7d, 0xfa, 0x59, 0x47, 0xf0, 0xad, 0xd4, 0xa2, 0xaf, 0x9c, 0xa4, 0x72, 0xc0,
   0xb7, 0xfd, 0x93, 0x26, 0x36, 0x3f, 0xf7, 0xcc, 0x34, 0xa5, 0xe5, 0xf1, 0x71, 0xd8, 0x31, 0x15,
   0x04, 0xc7, 0x23, 0xc3, 0x18, 0x96, 0x05, 0x9a, 0x07, 0x12, 0x80, 0xe2, 0xeb, 0x27, 0xb2, 0x75,
   0x09, 0x83, 0x2c, 0x1a, 0x1b, 0x6e, 0x5a, 0xa0, 0x52, 0x3b, 0xd6, 0xb3, 0x29, 0xe3, 0x2f, 0x84,
   0x53, 0xd1, 0x00, 0xed, 0x20, 0xfc, 0xb1, 0x5b, 0x6a, 0xcb, 0xbe, 0x39, 0x4a, 0x4c, 0x58, 0xcf,
   0xd0, 0xef, 0xaa, 0xfb, 0x43, 0x4d, 0x33, 0x85, 0x45, 0xf9, 0x02, 0x7f, 0x50, 0x3c, 0x9f, 0xa8,
   0x51, 0xa3, 0x40, 0x8f, 0x92, 0x9d, 0x38, 0xf5, 0xbc, 0xb6, 0xda, 0x21, 0x10, 0xff, 0xf3, 0xd2,
   0xcd, 0x0c, 0x13, 0xec, 0x5f, 0x97, 0x44, 0x17, 0xc4, 0xa7, 0x7e, 0x3d, 0x64, 0x5d, 0x19, 0x73,
   0x60, 0x81, 0x4f, 0xdc, 0x22, 0x2a, 0x90, 0x88, 0x46, 0xee, 0xb8, 0x14, 0xde, 0x5e, 0x0b, 0xdb,
   0xe0, 0x32, 0x3a, 0x0a, 0x49, 0x06, 0x24, 0x5c, 0xc2, 0xd3, 0xac, 0x62, 0x91, 0x95, 0xe4, 0x79,
   0xe7, 0xc8, 0x37, 0x6d, 0x8d, 0xd5, 0x4e, 0xa9, 0x6c, 0x56, 0xf4, 0xea, 0x65, 0x7a, 0xae, 0x08,
   0xba, 0x78, 0x25, 0x2e, 0x1c, 0xa6, 0xb4, 0xc6, 0xe8, 0xdd, 0x74, 0x1f, 0x4b, 0xbd, 0x8b, 0x8a,
   0x70, 0x3e, 0xb5, 0x66, 0x48, 0x03, 0xf6, 0x0e, 0x61, 0x35, 0x57, 0xb9, 0x86, 0xc1, 0x1d, 0x9e,
   0xe1, 0xf8, 0x98, 0x11, 0x69, 0xd9, 0x8e, 0x94, 0x9b, 0x1e, 0x87, 0xe9, 0xce, 0x55, 0x28, 0xdf,
   0x8c, 0xa1, 0x89, 0x0d, 0xbf, 0xe6, 0x42, 0x68, 0x41, 0x99, 0x2d, 0x0f, 0xb0, 0x54, 0xbb, 0x16]

/-- S-box substitution of one byte. -/
def sb (b : Nat) : Nat := sbox.getD b 0

/-- Multiplication by x in GF(2^8) modulo the AES polynomial. -/
def xtime (b : Nat) : Nat := if b < 128 then 2 * b else (2 * b) % 256 ^^^ 0x1b

/-- The AES round constants (enough for every key size). -/
def rcon : List Nat := [0x01, 0x02, 0x04, 0x08, 0x10, 0x20, 0x40, 0x80, 0x1b, 0x36]

/-- Bytewise xor of two byte strings. -/
def xorBytes (a b : List Nat) : List Nat := List.zipWith (· ^^^ ·) a b

/-- S-box applied to each byte of a word. -/
def subWord (w : List Nat) : List Nat := w.map sb

/-- One-byte left rotation of a four-byte word. -/
def rotWord (w : List Nat) : List Nat := w.drop 1 ++ w.take 1

/-- One step of the FIPS-197 key expansion: append the next word. -/
def nextWord (nk : Nat) (acc : List (List Nat)) : List (List Nat) :=
  let i := acc.length
  let prev := acc.getD (i - 1) []
  let temp :=
    if i % nk = 0 then
      xorBytes (subWord (rotWord prev)) [rcon.getD (i / nk - 1) 0, 0, 0, 0]
    else if 6 < nk ∧ i % nk = 4 then
      subWord prev
    else
      prev
  acc ++ [xorBytes (acc.getD (i - nk) []) temp]

/-- Expand the key into `n` four-byte words (the first `nk` are the key itself). -/
def expandWords (nk : Nat) (acc : List (List Nat)) : Nat → List (List Nat)
  | 0 => acc
  | n + 1 => expandWords nk (nextWord nk acc) n

/-- Split a byte string into four-byte words. -/
def toWords : List Nat → List (List Nat)
  | a :: b :: c :: d :: rest => [a, b, c, d] :: toWords rest
  | _ => []

/-- The expanded round keys (each 16 bytes) for a 16-, 24- or 32-byte key. -/
def roundKeys (key : List Nat) : List (List Nat) :=
  let nk := key.length / 4
  let nr := nk + 6
  let words := expandWords nk (toWords key) (4 * (nr + 1) - nk)
  (List.range (nr + 1)).map fun r => ((words.drop (4 * r)).take 4).flatten

/-- SubBytes on the 16-byte state. -/
def subBytesState (s : List Nat) : List Nat := s.map sb

/-- ShiftRows on the 16-byte state (bytes in FIPS-197 input order, so byte
`r + 4*c` is row `r`, column `c`). -/
def shiftRowsState (s : List Nat) : List Nat :=
  [0, 5, 10, 15, 4, 9, 14, 3, 8, 13, 2, 7, 12, 1, 6, 11].map (fun i => s.getD i 0)

/-- MixColumns on one four-byte column. -/
def mixColumn (c : List Nat) : List Nat :=
  let a0 := c.getD 0 0
  let a1 := c.getD 1 0
  let a2 := c.getD 2 0
  let a3 := c.getD 3 0
  [xtime a0 ^^^ (xtime a1 ^^^ a1) ^^^ a2 ^^^ a3,
   a0 ^^^ xtime a1 ^^^ (xtime a2 ^^^ a2) ^^^ a3,
   a0 ^^^ a1 ^^^ xtime a2 ^^^ (xtime a3 ^^^ a3),
   (xtime a0 ^^^ a0) ^^^ a1 ^^^ a2 ^^^ xtime a3]

/-- MixColumns on the 16-byte state. -/
def mixColumnsState (s : List Nat) : List Nat :=
  mixColumn (s.take 4) ++ mixColumn ((s.drop 4).take 4) ++
  mixColumn ((s.drop 8).take 4) ++ mixColumn ((s.drop 12).take 4)

/-- One full AES round. -/
def aesRound (s k : List Nat) : List Nat :=
  xorBytes (mixColumnsState (shiftRowsState (subBytesState s))) k

/-- The final AES round (no MixColumns). -/
def aesFinalRound (s k : List Nat) : List Nat :=
  xorBytes (shiftRowsState (subBytesState s)) k

/-- FIPS-197 single-block encryption with a 16-, 24- or 32-byte key, as
performed by `mbedtls_aes_crypt_ecb` in encryption direction. -/
def aesEncryptBlock (key block : List Nat) : List Nat :=
  let nr := key.length / 4 + 6
  let rks := roundKeys key
  let s0 := xorBytes block (rks.getD 0 [])
  let sN := (List.range (nr - 1)).foldl (fun s i => aesRound s (rks.getD (i + 1) [])) s0
  aesFinalRound sN (rks.getD nr [])

/-! ## Byte-string helpers -/

/-- Read byte `i` of a byte string (C++ `s[i]` on a `std::string` holding
raw bytes); out-of-range reads yield 0 and every byte is reduced mod 256. -/
def byteAt (s : List Nat) (i : Nat) : Nat := s.getD i 0 % 256

/-- `strlen(s.c_str())`: the number of bytes before the first NUL. -/
def cStringLength (s : List Nat) : Nat := (s.takeWhile (fun b => b != 0)).length

/-- A 16-bit little-endian read `s[i] + s[i+1]*0x100` (the `uint16_t` cast in
the source is exact because both operands are bytes). -/
def u16le (s : List Nat) (i : Nat) : Nat := byteAt s i + byteAt s (i + 1) * 0x100

/-- A 32-bit little-endian read
`s[i] + s[i+1]*0x100 + s[i+2]*0x10000 + s[i+3]*0x1000000` (the `uint32_t`
cast in the source is exact because the operands are bytes). -/
def u32le (s : List Nat) (i : Nat) : Nat :=
  byteAt s i + byteAt s (i + 1) * 0x100 + byteAt s (i + 2) * 0x10000 +
    byteAt s (i + 3) * 0x1000000

/-! ## `encrypt` and `calculateHash` -/

/-- The encryption key built by `encrypt`: the C++ string
`"00" + id + "00" + id` (the character 0 is byte 0x30). -/
def encryptKey (id : List Nat) : List Nat :=
  [0x30, 0x30] ++ id ++ [0x30, 0x30] ++ id

/-- `encrypt(buffer, id)`: single-block AES-ECB encryption of the first 16
bytes of `buffer` under the key `"00" + id + "00" + id`.  The key size
handed to `mbedtls_aes_setkey_enc` is `strlen(key.c_str()) * 8` bits;
`mbedtls_aes_setkey_enc` accepts only 128-, 192- or 256-bit keys, and on
any other size it fails and the cipher context is never keyed, so no
defined ciphertext is produced (`none`). -/
def encrypt (buffer id : List Nat) : Option (List Nat) :=
  let key := encryptKey id
  let n := cStringLength key
  if n = 16 ∨ n = 24 ∨ n = 32 then
    some (aesEncryptBlock (key.take n) (buffer.take 16))
  else
    none

/-- `calculateHash(data, id)`: reject a challenge whose length is not 8
(the source logs an error and returns `NULL`), otherwise encrypt
`data + data` and keep the first 8 ciphertext bytes. -/
def calculateHash (data id : List Nat) : Option (List Nat) :=
  if data.length ≠ 8 then
    none
  else
    (encrypt (data ++ data) id).map (fun h => h.take 8)

/-! ## The authentication handshake -/

/-- The fixed 10-byte `AuthRequestTxMessage`. -/
def authRequestTxMessage : List Nat :=
  [0x01, 0x19, 0xF3, 0x89, 0xF8, 0xB7, 0x58, 0x41, 0x33, 0x02]

/-- Observable outcome of `authenticate()`: its boolean return value, the
frames sent on the auth channel (in order), and the global `bonding` flag
(`none` when the function never assigns it). -/
structure AuthOutcome where
  success : Bool
  sent : List (List Nat)
  bonding : Option Bool
  deriving DecidableEq

/-- `authenticate()`, with the two auth-channel responses delivered by
`AuthWaitToReceiveValue` passed in as `r1` and `r2` (the second is never
awaited on the early-return path). -/
def authenticate (transmitterID r1 r2 : List Nat) : AuthOutcome :=
  let sent1 := [authRequestTxMessage]
  if r1.length ≠ 17 ∨ byteAt r1 0 ≠ 0x03 then
    { success := false, sent := sent1, bonding := none }
  else
    -- The loop splits bytes 1..8 into tokenHash (never used afterwards)
    -- and bytes 9..16 into the challenge issued by the transmitter.
    let challenge := r1.drop 9
    let hash := (calculateHash challenge transmitterID).getD []
    let authChallengeTXMessage := 0x04 :: hash
    let sent2 := sent1 ++ [authChallengeTXMessage]
    if r2.length = 3 ∧ byteAt r2 1 = 1 then
      { success := true, sent := sent2, bonding := some (byteAt r2 2 != 0x01) }
    else
      { success := false, sent := sent2, bonding := none }

/-! ## Telemetry records and decoders -/

/-- Record printed by `readTimeMessage`. -/
structure TimeInfo where
  status : Nat
  currentTime : Nat
  sessionStartTime : Nat
  deriving DecidableEq

/-- `readTimeMessage()`, with the control-channel response passed in. -/
def readTimeMessage (msg : List Nat) : Option TimeInfo :=
  if msg.length ≠ 16 ∨ byteAt msg 0 ≠ 0x25 then
    none
  else
    some { status := byteAt msg 1
           currentTime := u32le msg 2
           sessionStartTime := u32le msg 6 }

/-- Record printed by `readBatteryStatus`. -/
structure BatteryInfo where
  status : Nat
  voltageA : Nat
  voltageB : Nat
  resistance : Option Nat
  runtime : Nat
  temperature : Nat
  deriving DecidableEq

/-- `readBatteryStatus()`, with the control-channel response passed in.
The tail of the record is keyed on the frame length alone. -/
def readBatteryStatus (msg : List Nat) : Option BatteryInfo :=
  if ¬(msg.length = 10 ∨ msg.length = 12) ∨ byteAt msg 0 ≠ 0x23 then
    none
  else if msg.length = 12 then
    some { status := byteAt msg 1
           voltageA := u16le msg 2
           voltageB := u16le msg 4
           resistance := some (u16le msg 6)
           runtime := byteAt msg 8
           temperature := byteAt msg 9 }
  else
    some { status := byteAt msg 1
           voltageA := u16le msg 2
           voltageB := u16le msg 4
           resistance := none
           runtime := byteAt msg 6
           temperature := byteAt msg 7 }

/-- Record printed by `readGlucose`. -/
structure GlucoseReading where
  status : Nat
  sequence : Nat
  timestamp : Nat
  displayOnly : Bool
  glucose : Nat
  state : Nat
  trend : Int
  deriving DecidableEq

/-- `readGlucose()`, with the control-channel response passed in.  Returns
the frames sent on the control channel together with the decoded record.
`trend` is a `char` sign-extended to `int`. -/
def readGlucose (transmitterID msg : List Nat) :
    List (List Nat) × Option GlucoseReading :=
  let glucoseTxMessageG5 : List Nat := [0x30, 0x53, 0x36]
  let glucoseTxMessageG6 : List Nat := [0x4e, 0x0a, 0xa9]
  let sent := if byteAt transmitterID 0 ≠ 8 then [glucoseTxMessageG5]
              else [glucoseTxMessageG6]
  (sent,
   if msg.length < 16 ∨
       byteAt msg 0 ≠ (if byteAt transmitterID 0 ≠ 8 then 0x31 else 0x4f) then
     none
   else
     let glucoseBytes := u16le msg 10
     some { status := byteAt msg 1
            sequence := u32le msg 2
            timestamp := u32le msg 6
            displayOnly := decide (glucoseBytes &&& 0xf000 > 0)
            glucose := glucoseBytes &&& 0xfff
            state := byteAt msg 12
            trend := if byteAt msg 13 < 128 then (byteAt msg 13 : Int)
                     else (byteAt msg 13 : Int) - 256 })

/-- Record printed by `readSensor`. -/
structure SensorReading where
  status : Nat
  timestamp : Nat
  unfiltered : Option Nat
  filtered : Option Nat
  deriving DecidableEq

/-- `readSensor()`, with the control-channel response passed in.  The raw
fields are only read from a 16-byte frame; for a family-B transmitter
(first identity byte 8) they are scaled by 34 in `uint32_t` arithmetic,
which wraps modulo 2^32. -/
def readSensor (transmitterID msg : List Nat) : Option SensorReading :=
  if (msg.length ≠ 16 ∧ msg.length ≠ 8) ∨ byteAt msg 0 ≠ 0x2f then
    none
  else if 8 < msg.length then
    let unfiltered := u32le msg 6
    let filtered := u32le msg 10
    if byteAt transmitterID 0 = 8 then
      some { status := byteAt msg 1
             timestamp := u32le msg 2
             unfiltered := some (unfiltered * 34 % 4294967296)
             filtered := some (filtered * 34 % 4294967296) }
    else
      some { status := byteAt msg 1
             timestamp := u32le msg 2
             unfiltered := some unfiltered
             filtered := some filtered }
  else
    some { status := byteAt msg 1
           timestamp := u32le msg 2
           unfiltered := none
           filtered := none }

/-- Record printed by `readLastCalibration`. -/
structure CalibrationInfo where
  glucose : Nat
  timestamp : Nat
  deriving DecidableEq

/-- `readLastCalibration()`, with the control-channel response passed in. -/
def readLastCalibration (msg : List Nat) : Option CalibrationInfo :=
  if (msg.length ≠ 19 ∧ msg.length ≠ 20) ∨ byteAt msg 0 ≠ 0x33 then
    none
  else
    some { glucose := u16le msg 11
           timestamp := u32le msg 13 }

/-! ## Sanity check of the AES primitive -/

set_option maxRecDepth 20000 in
/-- The AES model reproduces the FIPS-197 appendix C.1 example vector. -/
theorem aesEncryptBlock_fips197_c1 :
    aesEncryptBlock
      [0x00, 0x01, 0x02, 0x03, 0x04, 0x05, 0x06, 0x07,
       0x08, 0x09, 0x0a, 0x0b, 0x0c, 0x0d, 0x0e, 0x0f]
      [0x00, 0x11, 0x22, 0x33, 0x44, 0x55, 0x66, 0x77,
       0x88, 0x99, 0xaa, 0xbb, 0xcc, 0xdd, 0xee, 0xff] =
      [0x69, 0xc4, 0xe0, 0xd8, 0x6a, 0x7b, 0x04, 0x30,
       0xd8, 0xcd, 0xb7, 0x80, 0x70, 0xb4, 0xc5, 0x5a] := by
  decide

/-! ## Helper lemmas -/

theorem takeWhile_nonzero_eq_self {l : List Nat} (h : ∀ b ∈ l, b ≠ 0) :
    l.takeWhile (fun b => b != 0) = l := by
  induction l with
  | nil => rfl
  | cons a t ih =>
    have ha : a ≠ 0 := h a (by simp)
    simp only [List.takeWhile_cons]
    rw [if_pos (by simpa using ha)]
    rw [ih fun b hb => h b (by simp [hb])]

theorem encryptKey_length {id : List Nat} (h : id.length = 6) :
    (encryptKey id).length = 16 := by
  simp [encryptKey, h]

theorem cStringLength_encryptKey {id : List Nat} (h6 : id.length = 6)
    (hz : ∀ b ∈ id, b ≠ 0) : cStringLength (encryptKey id) = 16 := by
  have : ∀ b ∈ encryptKey id, b ≠ 0 := by
    intro b hb
    simp only [encryptKey, List.mem_append, List.mem_cons,
      List.not_mem_nil, or_false] at hb
    have hb48 : b = 48 ∨ b ∈ id := by tauto
    rcases hb48 with rfl | h
    · omega
    · exact hz b h
  rw [cStringLength, takeWhile_nonzero_eq_self this, encryptKey_length h6]

/-! ## Claim theorems -/

/-- C1: for an identity of the real shape (6 NUL-free bytes, so that the
key string measures 16 bytes) and any 8-byte challenge `c`,
`calculateHash c id` is exactly the first 8 bytes of the single-block
AES-ECB encryption of the 16-byte plaintext `c ++ c` under the 16-byte
key `"00" + id + "00" + id`. -/
theorem calculateHash_is_aes_ecb (id c : List Nat) (hid : id.length = 6)
    (hz : ∀ b ∈ id, b ≠ 0) (hc : c.length = 8) :
    calculateHash c id =
      some ((aesEncryptBlock ([0x30, 0x30] ++ id ++ [0x30, 0x30] ++ id)
        (c ++ c)).take 8) := by
  have hlen : ¬(c.length ≠ 8) := by omega
  have hk : cStringLength (encryptKey id) = 16 := cStringLength_encryptKey hid hz
  have hkl : (encryptKey id).length = 16 := encryptKey_length hid
  have hcc : (c ++ c).length = 16 := by simp [hc]
  have htk : (encryptKey id).take 16 = encryptKey id := by
    rw [← hkl]; exact List.take_length _
  have htc : (c ++ c).take 16 = c ++ c := by
    rw [← hcc]; exact List.take_length _
  simp only [calculateHash, if_neg hlen, encrypt, hk]
  rw [if_pos (by tauto), htk, htc]
  rfl

/-- Witness for C1 at the identity "123456" and challenge 01..08. -/
theorem calculateHash_is_aes_ecb_witness :
    ([49, 50, 51, 52, 53, 54] : List Nat).length = 6 ∧
    (∀ b ∈ ([49, 50, 51, 52, 53, 54] : List Nat), b ≠ 0) ∧
    ([1, 2, 3, 4, 5, 6, 7, 8] : List Nat).length = 8 ∧
    calculateHash [1, 2, 3, 4, 5, 6, 7, 8] [49, 50, 51, 52, 53, 54] =
      some ((aesEncryptBlock
        ([0x30, 0x30] ++ [49, 50, 51, 52, 53, 54] ++
          [0x30, 0x30] ++ [49, 50, 51, 52, 53, 54])
        ([1, 2, 3, 4, 5, 6, 7, 8] ++ [1, 2, 3, 4, 5, 6, 7, 8])).take 8) :=
  ⟨by decide, by decide, by decide,
   calculateHash_is_aes_ecb [49, 50, 51, 52, 53, 54] [1, 2, 3, 4, 5, 6, 7, 8]
     (by decide) (by decide) (by decide)⟩

/-- C10: a challenge whose length is not 8 is rejected by `calculateHash`;
no hash value is produced. -/
theorem calculateHash_requires_8_byte_challenge (data id : List Nat)
    (h : data.length ≠ 8) : calculateHash data id = none := by
  simp [calculateHash, h]

/-- Witness for C10 at a 3-byte challenge. -/
theorem calculateHash_requires_8_byte_challenge_witness :
    ([1, 2, 3] : List Nat).length ≠ 8 ∧
    calculateHash [1, 2, 3] [49, 50, 51, 52, 53, 54] = none :=
  ⟨by decide,
   calculateHash_requires_8_byte_challenge [1, 2, 3] [49, 50, 51, 52, 53, 54]
     (by decide)⟩

/-- C9: a first auth-channel response of wrong length or wrong opcode makes
`authenticate` return false, and the only frame ever sent is the initial
auth request (nothing further is sent after that response arrives). -/
theorem authenticate_malformed_challenge_rejects (tid r1 r2 : List Nat)
    (h : r1.length ≠ 17 ∨ byteAt r1 0 ≠ 0x03) :
    (authenticate tid r1 r2).success = false ∧
    (authenticate tid r1 r2).sent = [authRequestTxMessage] := by
  rw [authenticate, if_pos h]
  exact ⟨rfl, rfl⟩

/-- Witness for C9 at an empty first response. -/
theorem authenticate_malformed_challenge_rejects_witness :
    (([] : List Nat).length ≠ 17 ∨ byteAt [] 0 ≠ 0x03) ∧
    (authenticate [49, 50, 51, 52, 53, 54] [] [0x05, 0x01, 0x01]).success = false ∧
    (authenticate [49, 50, 51, 52, 53, 54] [] [0x05, 0x01, 0x01]).sent =
      [authRequestTxMessage] :=
  ⟨Or.inl (by decide),
   authenticate_malformed_challenge_rejects [49, 50, 51, 52, 53, 54] []
     [0x05, 0x01, 0x01] (Or.inl (by decide))⟩

/-- C2: a well-formed 17-byte challenge response with opcode 0x03 followed
by the status response {0x05, 0x01, 0x01} authenticates and records that
bonding is not required. -/
theorem authenticate_success_no_bonding (tid r1 : List Nat)
    (h1 : r1.length = 17) (h2 : byteAt r1 0 = 0x03) :
    (authenticate tid r1 [0x05, 0x01, 0x01]).success = true ∧
    (authenticate tid r1 [0x05, 0x01, 0x01]).bonding = some false := by
  rw [authenticate, if_neg (by omega)]
  rw [if_pos (by constructor <;> decide)]
  exact ⟨rfl, rfl⟩

/-- Witness for C2 at a concrete 17-byte challenge response. -/
theorem authenticate_success_no_bonding_witness :
    (3 :: List.replicate 16 0).length = 17 ∧
    byteAt (3 :: List.replicate 16 0) 0 = 0x03 ∧
    (authenticate [49, 50, 51, 52, 53, 54] (3 :: List.replicate 16 0)
      [0x05, 0x01, 0x01]).success = true ∧
    (authenticate [49, 50, 51, 52, 53, 54] (3 :: List.replicate 16 0)
      [0x05, 0x01, 0x01]).bonding = some false :=
  ⟨by decide, by decide,
   (authenticate_success_no_bonding [49, 50, 51, 52, 53, 54]
      (3 :: List.replicate 16 0) (by decide) (by decide)).1,
   (authenticate_success_no_bonding [49, 50, 51, 52, 53, 54]
      (3 :: List.replicate 16 0) (by decide) (by decide)).2⟩

/-- C3 counterexample: at step 4 the source never inspects the first byte
of the status response.  A 3-byte status response {0x00, 0x01, 0x01},
whose first byte differs from the expected opcode 0x05, still resolves
Authenticated (returns true) instead of Rejected. -/
theorem authenticate_status_opcode_not_checked :
    ([0x00, 0x01, 0x01] : List Nat).length = 3 ∧
    byteAt [0x00, 0x01, 0x01] 0 ≠ 0x05 ∧
    (authenticate [49, 50, 51, 52, 53, 54] (3 :: List.replicate 16 0)
      [0x00, 0x01, 0x01]).success = true := by
  refine ⟨by decide, by decide, ?_⟩
  rw [authenticate, if_neg (by decide)]
  rw [if_pos (by constructor <;> decide)]

/-- C3 amended: what step 4 actually checks is the second byte.  Every
3-byte status response whose second byte differs from 1 resolves Rejected
(returns false), regardless of the first and third bytes. -/
theorem authenticate_status_second_byte_decides (tid r1 r2 : List Nat)
    (_hlen : r2.length = 3) (h : byteAt r2 1 ≠ 1) :
    (authenticate tid r1 r2).success = false := by
  rw [authenticate]
  split
  · rfl
  · rw [if_neg (by rintro ⟨-, hb⟩; exact h hb)]

/-- Witness for the amended C3 at the status response {0x05, 0x02, 0x01}
(authentication refused by the transmitter). -/
theorem authenticate_status_second_byte_decides_witness :
    ([0x05, 0x02, 0x01] : List Nat).length = 3 ∧
    byteAt [0x05, 0x02, 0x01] 1 ≠ 1 ∧
    (authenticate [49, 50, 51, 52, 53, 54] (3 :: List.replicate 16 0)
      [0x05, 0x02, 0x01]).success = false :=
  ⟨by decide, by decide,
   authenticate_status_second_byte_decides [49, 50, 51, 52, 53, 54]
     (3 :: List.replicate 16 0) [0x05, 0x02, 0x01] (by decide) (by decide)⟩

/-- C4: each telemetry query accepts and decodes a received byte sequence
iff its length lies in the valid-length set of the section 6 table (time:
16; battery: 10 or 12; glucose: at least 16; sensor: 8 or 16; calibration:
19 or 20) and its first byte is the expected opcode; otherwise it returns
failure and no record. -/
theorem telemetry_validation_rule (tid msg : List Nat) :
    ((readTimeMessage msg).isSome = true ↔
      msg.length = 16 ∧ byteAt msg 0 = 0x25) ∧
    ((readBatteryStatus msg).isSome = true ↔
      (msg.length = 10 ∨ msg.length = 12) ∧ byteAt msg 0 = 0x23) ∧
    (((readGlucose tid msg).2).isSome = true ↔
      16 ≤ msg.length ∧
        byteAt msg 0 = (if byteAt tid 0 ≠ 8 then 0x31 else 0x4f)) ∧
    ((readSensor tid msg).isSome = true ↔
      (msg.length = 8 ∨ msg.length = 16) ∧ byteAt msg 0 = 0x2f) ∧
    ((readLastCalibration msg).isSome = true ↔
      (msg.length = 19 ∨ msg.length = 20) ∧ byteAt msg 0 = 0x33) := by
  refine ⟨?_, ?_, ?_, ?_, ?_⟩
  · rw [readTimeMessage]
    split
    · simp only [Option.isSome_none]
      constructor
      · intro h; cases h
      · intro h; omega
    · simp only [Option.isSome_some, true_iff]
      omega
  · rw [readBatteryStatus]
    split
    · simp only [Option.isSome_none]
      constructor
      · intro h; cases h
      · intro h; tauto
    · split <;> simp only [Option.isSome_some, true_iff] <;> tauto
  · by_cases hg : msg.length < 16 ∨
        byteAt msg 0 ≠ (if byteAt tid 0 ≠ 8 then 0x31 else 0x4f)
    · have hnone : (readGlucose tid msg).2 = none := by
        simp only [readGlucose]
        rw [if_pos hg]
      rw [hnone]
      simp only [Option.isSome_none]
      constructor
      · intro h; cases h
      · rintro ⟨h16, hop⟩
        rcases hg with h | h
        · omega
        · exact absurd hop h
    · have hsome : ∃ r, (readGlucose tid msg).2 = some r := by
        simp only [readGlucose]
        rw [if_neg hg]
        exact ⟨_, rfl⟩
      obtain ⟨r, hr⟩ := hsome
      rw [hr]
      simp only [Option.isSome_some, true_iff]
      omega
  · rw [readSensor]
    split
    · simp only [Option.isSome_none]
      constructor
      · intro h; cases h
      · intro h; tauto
    · split
      · split <;> simp only [Option.isSome_some, true_iff] <;> tauto
      · simp only [Option.isSome_some, true_iff]; tauto
  · rw [readLastCalibration]
    split
    · simp only [Option.isSome_none]
      constructor
      · intro h; cases h
      · intro h; tauto
    · simp only [Option.isSome_some, true_iff]; tauto

/-- C6: the glucose query sends the 0x30 command and accepts only opcode
0x31 when the first identity byte is not 8, and sends the 0x4e command and
accepts only opcode 0x4f when it is 8. -/
theorem readGlucose_family_dispatch (tid rx : List Nat) :
    (byteAt tid 0 ≠ 8 →
      (readGlucose tid rx).1 = [[0x30, 0x53, 0x36]] ∧
      ((readGlucose tid rx).2.isSome = true → byteAt rx 0 = 0x31)) ∧
    (byteAt tid 0 = 8 →
      (readGlucose tid rx).1 = [[0x4e, 0x0a, 0xa9]] ∧
      ((readGlucose tid rx).2.isSome = true → byteAt rx 0 = 0x4f)) := by
  by_cases h : byteAt tid 0 = 8
  · refine ⟨fun hc => absurd h hc, fun _ => ⟨?_, ?_⟩⟩
    · simp only [readGlucose]
      rw [if_neg (by omega)]
    · simp only [readGlucose]
      rw [if_neg (show ¬byteAt tid 0 ≠ 8 by omega)]
      split
      · simp
      · intro _
        omega
  · refine ⟨fun _ => ⟨?_, ?_⟩, fun hc => absurd hc h⟩
    · simp only [readGlucose]
      rw [if_pos h]
    · simp only [readGlucose]
      rw [if_pos (show byteAt tid 0 ≠ 8 from h)]
      split
      · simp
      · intro _
        omega

/-- Witness for C6: one accepted frame for each transmitter family. -/
theorem readGlucose_family_dispatch_witness :
    (readGlucose [49, 50, 51, 52, 53, 54]
        [0x31, 0, 0, 0, 0, 0, 0, 0, 0, 0, 0, 0, 0, 0, 0, 0]).1 =
      [[0x30, 0x53, 0x36]] ∧
    byteAt [0x31, 0, 0, 0, 0, 0, 0, 0, 0, 0, 0, 0, 0, 0, 0, 0] 0 = 0x31 ∧
    (readGlucose [8, 50, 51, 52, 53, 54]
        [0x4f, 0, 0, 0, 0, 0, 0, 0, 0, 0, 0, 0, 0, 0, 0, 0]).1 =
      [[0x4e, 0x0a, 0xa9]] ∧
    byteAt [0x4f, 0, 0, 0, 0, 0, 0, 0, 0, 0, 0, 0, 0, 0, 0, 0] 0 = 0x4f :=
  ⟨((readGlucose_family_dispatch [49, 50, 51, 52, 53, 54]
      [0x31, 0, 0, 0, 0, 0, 0, 0, 0, 0, 0, 0, 0, 0, 0, 0]).1 (by decide)).1,
   ((readGlucose_family_dispatch [49, 50, 51, 52, 53, 54]
      [0x31, 0, 0, 0, 0, 0, 0, 0, 0, 0, 0, 0, 0, 0, 0, 0]).1 (by decide)).2
     (by decide),
   ((readGlucose_family_dispatch [8, 50, 51, 52, 53, 54]
      [0x4f, 0, 0, 0, 0, 0, 0, 0, 0, 0, 0, 0, 0, 0, 0, 0]).2 (by decide)).1,
   ((readGlucose_family_dispatch [8, 50, 51, 52, 53, 54]
      [0x4f, 0, 0, 0, 0, 0, 0, 0, 0, 0, 0, 0, 0, 0, 0, 0]).2 (by decide)).2
     (by decide)⟩

/-- C8: an accepted 12-byte battery frame always carries a resistance
value (little-endian at bytes 6-7) with runtime at byte 8 and temperature
at byte 9; an accepted 10-byte battery frame never carries resistance and
reads runtime and temperature from bytes 6 and 7. -/
theorem readBatteryStatus_variant (msg : List Nat) (r : BatteryInfo)
    (h : readBatteryStatus msg = some r) :
    (msg.length = 12 →
      r.resistance = some (byteAt msg 6 + byteAt msg 7 * 0x100) ∧
      r.runtime = byteAt msg 8 ∧ r.temperature = byteAt msg 9) ∧
    (msg.length = 10 →
      r.resistance = none ∧
      r.runtime = byteAt msg 6 ∧ r.temperature = byteAt msg 7) := by
  rw [readBatteryStatus] at h
  split at h
  · cases h
  · split at h
    · injection h with h2
      subst h2
      exact ⟨fun _ => ⟨by simp [u16le], rfl, rfl⟩, fun h10 => by omega⟩
    · injection h with h2
      subst h2
      exact ⟨fun h12c => by omega, fun _ => ⟨rfl, rfl, rfl⟩⟩

/-- Witness for C8: one 12-byte and one 10-byte accepted battery frame. -/
theorem readBatteryStatus_variant_witness :
    readBatteryStatus [0x23, 1, 2, 3, 4, 5, 6, 7, 8, 9, 10, 11] =
      some ⟨1, 770, 1284, some 1798, 8, 9⟩ ∧
    (⟨1, 770, 1284, some 1798, 8, 9⟩ : BatteryInfo).resistance =
      some (byteAt [0x23, 1, 2, 3, 4, 5, 6, 7, 8, 9, 10, 11] 6 +
        byteAt [0x23, 1, 2, 3, 4, 5, 6, 7, 8, 9, 10, 11] 7 * 0x100) ∧
    readBatteryStatus [0x23, 1, 2, 3, 4, 5, 6, 7, 8, 9] =
      some ⟨1, 770, 1284, none, 6, 7⟩ ∧
    (⟨1, 770, 1284, none, 6, 7⟩ : BatteryInfo).resistance = none :=
  ⟨by decide,
   ((readBatteryStatus_variant [0x23, 1, 2, 3, 4, 5, 6, 7, 8, 9, 10, 11]
      ⟨1, 770, 1284, some 1798, 8, 9⟩ (by decide)).1 (by decide)).1,
   by decide,
   ((readBatteryStatus_variant [0x23, 1, 2, 3, 4, 5, 6, 7, 8, 9]
      ⟨1, 770, 1284, none, 6, 7⟩ (by decide)).2 (by decide)).1⟩

theorem byteAt_lt (s : List Nat) (i : Nat) : byteAt s i < 256 :=
  Nat.mod_lt _ (by norm_num)

/-- Masking with 0xf000 extracts bits 12 to 15. -/
theorem and_f000_eq (x : Nat) : x &&& 0xf000 = x / 4096 % 16 * 4096 := by
  have h1 : x / 4096 % 16 * 4096 = (x >>> 12 % 2 ^ 4) <<< 12 := by
    rw [Nat.shiftRight_eq_div_pow, Nat.shiftLeft_eq]
    norm_num
  have h2 : (0xf000 : Nat) = (2 ^ 4 - 1) <<< 12 := by decide
  rw [h1, h2]
  apply Nat.eq_of_testBit_eq
  intro i
  simp only [Nat.testBit_and, Nat.testBit_shiftLeft, Nat.testBit_mod_two_pow,
    Nat.testBit_shiftRight, Nat.testBit_two_pow_sub_one]
  by_cases h : 12 ≤ i
  · have he : 12 + (i - 12) = i := by omega
    simp only [ge_iff_le, h, iff_true, decide_eq_true_eq, he, Bool.true_and,
      eq_self_iff_true, decide_True]
    cases x.testBit i <;> cases hd : decide (i - 12 < 4) <;> simp
  · have hd : decide (12 ≤ i) = false := by simp [h]
    simp only [ge_iff_le, hd, Bool.false_and, Bool.and_false]

/-- C5: in an accepted glucose frame the decoded glucose is the low 12
bits of the 16-bit little-endian field at bytes 10-11, and the
display-only flag is set exactly when the high nibble of that field is
non-zero. -/
theorem readGlucose_packing (tid msg : List Nat) (r : GlucoseReading)
    (h : (readGlucose tid msg).2 = some r) :
    r.glucose = (byteAt msg 10 + byteAt msg 11 * 0x100) % 4096 ∧
    (r.displayOnly = true ↔
      (byteAt msg 10 + byteAt msg 11 * 0x100) / 4096 ≠ 0) := by
  by_cases hg : msg.length < 16 ∨
      byteAt msg 0 ≠ (if byteAt tid 0 ≠ 8 then 0x31 else 0x4f)
  · exfalso
    have hnone : (readGlucose tid msg).2 = none := by
      simp only [readGlucose]
      rw [if_pos hg]
    rw [hnone] at h
    cases h
  · have hsome : (readGlucose tid msg).2 =
        some { status := byteAt msg 1
               sequence := u32le msg 2
               timestamp := u32le msg 6
               displayOnly := decide (u16le msg 10 &&& 0xf000 > 0)
               glucose := u16le msg 10 &&& 0xfff
               state := byteAt msg 12
               trend := if byteAt msg 13 < 128 then (byteAt msg 13 : Int)
                        else (byteAt msg 13 : Int) - 256 } := by
      simp only [readGlucose]
      rw [if_neg hg]
    rw [hsome] at h
    injection h with h2
    subst h2
    have hb10 := byteAt_lt msg 10
    have hb11 := byteAt_lt msg 11
    constructor
    · show u16le msg 10 &&& 0xfff = _
      rw [show (0xfff : Nat) = 2 ^ 12 - 1 by norm_num,
        Nat.and_pow_two_sub_one_eq_mod]
      simp [u16le]
    · show decide (u16le msg 10 &&& 0xf000 > 0) = true ↔ _
      rw [decide_eq_true_eq, and_f000_eq]
      simp only [u16le]
      norm_num
      omega

/-- Witness for C5 at a frame whose 16-bit field is 0x1234: the decoded
glucose is 0x234 = 564 and the display-only flag is set. -/
theorem readGlucose_packing_witness :
    (⟨0, 0, 0, true, 564, 0, 0⟩ : GlucoseReading).glucose =
      (byteAt [0x31, 0, 0, 0, 0, 0, 0, 0, 0, 0, 0x34, 0x12, 0, 0, 0, 0] 10 +
        byteAt [0x31, 0, 0, 0, 0, 0, 0, 0, 0, 0, 0x34, 0x12, 0, 0, 0, 0] 11 *
          0x100) % 4096 ∧
    ((⟨0, 0, 0, true, 564, 0, 0⟩ : GlucoseReading).displayOnly = true ↔
      (byteAt [0x31, 0, 0, 0, 0, 0, 0, 0, 0, 0, 0x34, 0x12, 0, 0, 0, 0] 10 +
        byteAt [0x31, 0, 0, 0, 0, 0, 0, 0, 0, 0, 0x34, 0x12, 0, 0, 0, 0] 11 *
          0x100) / 4096 ≠ 0) :=
  readGlucose_packing [49, 50, 51, 52, 53, 54]
    [0x31, 0, 0, 0, 0, 0, 0, 0, 0, 0, 0x34, 0x12, 0, 0, 0, 0]
    ⟨0, 0, 0, true, 564, 0, 0⟩ (by decide)

/-- C7 counterexample: the family-B scaling is done in `uint32_t`
arithmetic, which wraps.  For the accepted 16-byte frame below the raw
unfiltered field is 0x80000000, and the decoded value is
0x80000000 * 34 mod 2^32 = 0, not 0x80000000 * 34. -/
theorem readSensor_scale_wraps :
    byteAt [8, 50, 51, 52, 53, 54] 0 = 8 ∧
    readSensor [8, 50, 51, 52, 53, 54]
      [0x2f, 0, 0, 0, 0, 0, 0, 0, 0, 0x80, 0, 0, 0, 0, 0, 0] =
      some ⟨0, 0, some 0, some 0⟩ ∧
    (⟨0, 0, some 0, some 0⟩ : SensorReading).unfiltered ≠
      some ((byteAt [0x2f, 0, 0, 0, 0, 0, 0, 0, 0, 0x80, 0, 0, 0, 0, 0, 0] 6 +
        byteAt [0x2f, 0, 0, 0, 0, 0, 0, 0, 0, 0x80, 0, 0, 0, 0, 0, 0] 7 * 0x100 +
        byteAt [0x2f, 0, 0, 0, 0, 0, 0, 0, 0, 0x80, 0, 0, 0, 0, 0, 0] 8 * 0x10000 +
        byteAt [0x2f, 0, 0, 0, 0, 0, 0, 0, 0, 0x80, 0, 0, 0, 0, 0, 0] 9 * 0x1000000)
        * 34) := by
  decide

/-- C7 amended: in an accepted 16-byte sensor frame, a family-B identity
(first byte 8) yields the raw 32-bit little-endian fields at bytes 6-9 and
10-13 multiplied by 34 and reduced modulo 2^32, while a family-A identity
yields the raw fields unscaled. -/
theorem readSensor_scaling (tid msg : List Nat) (r : SensorReading)
    (h : readSensor tid msg = some r) (hlen : msg.length = 16) :
    (byteAt tid 0 = 8 →
      r.unfiltered = some ((byteAt msg 6 + byteAt msg 7 * 0x100 +
        byteAt msg 8 * 0x10000 + byteAt msg 9 * 0x1000000) * 34 % 2 ^ 32) ∧
      r.filtered = some ((byteAt msg 10 + byteAt msg 11 * 0x100 +
        byteAt msg 12 * 0x10000 + byteAt msg 13 * 0x1000000) * 34 % 2 ^ 32)) ∧
    (byteAt tid 0 ≠ 8 →
      r.unfiltered = some (byteAt msg 6 + byteAt msg 7 * 0x100 +
        byteAt msg 8 * 0x10000 + byteAt msg 9 * 0x1000000) ∧
      r.filtered = some (byteAt msg 10 + byteAt msg 11 * 0x100 +
        byteAt msg 12 * 0x10000 + byteAt msg 13 * 0x1000000)) := by
  rw [readSensor] at h
  split at h
  · cases h
  · split at h
    · split at h
      · rename_i h8 hfam
        injection h with h2
        subst h2
        refine ⟨fun _ => ⟨?_, ?_⟩, fun hA => absurd hfam hA⟩
        · show some (u32le msg 6 * 34 % 4294967296) = _
          norm_num [u32le]
        · show some (u32le msg 10 * 34 % 4294967296) = _
          norm_num [u32le]
      · rename_i h8 hfam
        injection h with h2
        subst h2
        refine ⟨fun hB => absurd hB hfam, fun _ => ⟨?_, ?_⟩⟩
        · show some (u32le msg 6) = _
          norm_num [u32le]
        · show some (u32le msg 10) = _
          norm_num [u32le]
    · exfalso
      rename_i hguard h8
      omega

/-- Witness for the amended C7: the same small frame decoded for each
family (raw fields 3 and 4; scaled values 102 and 136 for family B). -/
theorem readSensor_scaling_witness :
    (⟨1, 2, some 102, some 136⟩ : SensorReading).unfiltered =
      some ((byteAt [0x2f, 1, 2, 0, 0, 0, 3, 0, 0, 0, 4, 0, 0, 0, 0, 0] 6 +
        byteAt [0x2f, 1, 2, 0, 0, 0, 3, 0, 0, 0, 4, 0, 0, 0, 0, 0] 7 * 0x100 +
        byteAt [0x2f, 1, 2, 0, 0, 0, 3, 0, 0, 0, 4, 0, 0, 0, 0, 0] 8 * 0x10000 +
        byteAt [0x2f, 1, 2, 0, 0, 0, 3, 0, 0, 0, 4, 0, 0, 0, 0, 0] 9 * 0x1000000)
        * 34 % 2 ^ 32) ∧
    (⟨1, 2, some 3, some 4⟩ : SensorReading).unfiltered =
      some (byteAt [0x2f, 1, 2, 0, 0, 0, 3, 0, 0, 0, 4, 0, 0, 0, 0, 0] 6 +
        byteAt [0x2f, 1, 2, 0, 0, 0, 3, 0, 0, 0, 4, 0, 0, 0, 0, 0] 7 * 0x100 +
        byteAt [0x2f, 1, 2, 0, 0, 0, 3, 0, 0, 0, 4, 0, 0, 0, 0, 0] 8 * 0x10000 +
        byteAt [0x2f, 1, 2, 0, 0, 0, 3, 0, 0, 0, 4, 0, 0, 0, 0, 0] 9 * 0x1000000) :=
  ⟨((readSensor_scaling [8, 50, 51, 52, 53, 54]
      [0x2f, 1, 2, 0, 0, 0, 3, 0, 0, 0, 4, 0, 0, 0, 0, 0]
      ⟨1, 2, some 102, some 136⟩ (by decide) (by decide)).1 (by decide)).1,
   ((readSensor_scaling [49, 50, 51, 52, 53, 54]
      [0x2f, 1, 2, 0, 0, 0, 3, 0, 0, 0, 4, 0, 0, 0, 0, 0]
      ⟨1, 2, some 3, some 4⟩ (by decide) (by decide)).2 (by decide)).1⟩

end DexcomG6
